import Mathlib

/-!
Verification of the SAM simulator's detection/tracking engine.

The development shallowly embeds the two core classes of the repository:

* `SAM` (src/src/classes/SAM.ts): the Detection Engine — per-tick target
  recognition (`recalculateTargets`), missile proximity-kill evaluation
  (`recalculateMissiles`) and correlation queries
  (`getTargetOnAzimutAndElevation`).
* `SNR` (the narrow-beam tracking radar): manual beam steering (`setAzimut`),
  the direction-capture state machine (`captureTargetByDirection`,
  `trackTargetByDirection`, `resetCaptureTargetByDirection`) and the
  distance-capture state machine (`captureTargetByDistance`,
  `resetCaptureTargetByDistance`).

JavaScript numbers are modelled as real numbers, JavaScript `Record` objects
as insertion-ordered association lists, and event-listener invocations as an
append-only event log carried in the state.
-/

open Real Classical

noncomputable section

namespace SamSim

/-! ## Math.atan2, as in ECMAScript -/

/-- `Math.atan2 y x`: the angle of the point `(x, y)` in `(-π, π]`
(with `atan2 0 0 = 0`, as in JavaScript). -/
def atan2 (y x : ℝ) : ℝ :=
  if 0 < x then Real.arctan (y / x)
  else if x < 0 ∧ 0 ≤ y then Real.arctan (y / x) + Real.pi
  else if x < 0 ∧ y < 0 then Real.arctan (y / x) - Real.pi
  else if x = 0 ∧ 0 < y then Real.pi / 2
  else if x = 0 ∧ y < 0 then -(Real.pi / 2)
  else 0

theorem atan2_pos_x (y x : ℝ) (hx : 0 < x) : atan2 y x = Real.arctan (y / x) := by
  simp [atan2, hx]

theorem neg_pi_lt_atan2 (y x : ℝ) : -Real.pi < atan2 y x := by
  have hpi : 0 < Real.pi := Real.pi_pos
  have h1 : Real.arctan (y / x) < Real.pi / 2 := Real.arctan_lt_pi_div_two _
  have h2 : -(Real.pi / 2) < Real.arctan (y / x) := Real.neg_pi_div_two_lt_arctan _
  unfold atan2
  split_ifs with c1 c2 c3 c4 c5
  · linarith
  · linarith
  · obtain ⟨hx, hy⟩ := c3
    have hyx : 0 < y / x := div_pos_iff.mpr (Or.inr ⟨hy, hx⟩)
    have : 0 < Real.arctan (y / x) := by
      rw [← Real.arctan_zero]
      exact Real.arctan_strictMono hyx
    linarith
  · linarith
  · linarith
  · linarith

theorem atan2_le_pi (y x : ℝ) : atan2 y x ≤ Real.pi := by
  have hpi : 0 < Real.pi := Real.pi_pos
  have h1 : Real.arctan (y / x) < Real.pi / 2 := Real.arctan_lt_pi_div_two _
  have h2 : -(Real.pi / 2) < Real.arctan (y / x) := Real.neg_pi_div_two_lt_arctan _
  unfold atan2
  split_ifs with c1 c2 c3 c4 c5
  · linarith
  · rcases c2 with ⟨hx, hy⟩
    have hyx : y / x ≤ 0 := div_nonpos_of_nonneg_of_nonpos hy (le_of_lt hx)
    have : Real.arctan (y / x) ≤ 0 := by
      rw [← Real.arctan_zero]
      exact (Real.arctan_strictMono.le_iff_le).mpr hyx
    linarith
  · linarith
  · linarith
  · linarith
  · linarith

/-! ## JavaScript `Record<string, α>`, as an insertion-ordered association list -/

/-- Lookup of a key in a JavaScript record. -/
def lookupKey {α : Type} (k : String) : List (String × α) → Option α
  | [] => none
  | (k', v) :: rest => if k' = k then some v else lookupKey k rest

/-- `record[k] = v`: overwrites in place if the key exists, appends otherwise. -/
def upsertKey {α : Type} (k : String) (v : α) : List (String × α) → List (String × α)
  | [] => [(k, v)]
  | (k', v') :: rest => if k' = k then (k, v) :: rest else (k', v') :: upsertKey k v rest

/-- `delete record[k]`: removes the (first) binding of the key. -/
def eraseKey {α : Type} (k : String) : List (String × α) → List (String × α)
  | [] => []
  | (k', v') :: rest => if k' = k then rest else (k', v') :: eraseKey k rest

theorem lookupKey_eq_none_of_not_mem {α : Type} (k : String) (m : List (String × α))
    (h : k ∉ m.map Prod.fst) : lookupKey k m = none := by
  induction m with
  | nil => rfl
  | cons p rest ih =>
    obtain ⟨k', v'⟩ := p
    simp only [List.map_cons, List.mem_cons] at h
    push_neg at h
    have hne : k' ≠ k := Ne.symm h.1
    simp only [lookupKey, if_neg hne]
    exact ih h.2

theorem lookupKey_upsertKey_self {α : Type} (k : String) (v : α) (m : List (String × α)) :
    lookupKey k (upsertKey k v m) = some v := by
  induction m with
  | nil => simp [lookupKey, upsertKey]
  | cons p rest ih =>
    obtain ⟨k', v'⟩ := p
    by_cases h : k' = k
    · subst h
      simp [upsertKey, lookupKey]
    · simp only [upsertKey, if_neg h, lookupKey, if_neg h]
      exact ih

theorem lookupKey_upsertKey_ne {α : Type} (k k' : String) (v : α) (m : List (String × α))
    (h : k' ≠ k) : lookupKey k (upsertKey k' v m) = lookupKey k m := by
  induction m with
  | nil => simp [lookupKey, upsertKey, if_neg h]
  | cons p rest ih =>
    obtain ⟨k'', v''⟩ := p
    by_cases h2 : k'' = k'
    · have h4 : k'' ≠ k := by rw [h2]; exact h
      simp only [upsertKey, if_pos h2, lookupKey, if_neg h, if_neg h4]
    · simp only [upsertKey, if_neg h2, lookupKey]
      by_cases h3 : k'' = k
      · simp only [if_pos h3]
      · simp only [if_neg h3]
        exact ih

theorem lookupKey_eraseKey_self {α : Type} (k : String) (m : List (String × α))
    (hk : (m.map Prod.fst).Nodup) : lookupKey k (eraseKey k m) = none := by
  induction m with
  | nil => rfl
  | cons p rest ih =>
    obtain ⟨k', v'⟩ := p
    simp only [List.map_cons, List.nodup_cons] at hk
    by_cases h : k' = k
    · subst h
      simp only [eraseKey, if_pos rfl]
      exact lookupKey_eq_none_of_not_mem _ _ hk.1
    · simp only [eraseKey, if_neg h, lookupKey, if_neg h]
      exact ih hk.2

theorem lookupKey_eraseKey_ne {α : Type} (k k' : String) (m : List (String × α))
    (h : k' ≠ k) : lookupKey k (eraseKey k' m) = lookupKey k m := by
  induction m with
  | nil => rfl
  | cons p rest ih =>
    obtain ⟨k'', v''⟩ := p
    by_cases h2 : k'' = k'
    · have h4 : k'' ≠ k := by rw [h2]; exact h
      simp only [eraseKey, if_pos h2, lookupKey, if_neg h4]
    · simp only [eraseKey, if_neg h2, lookupKey]
      by_cases h3 : k'' = k
      · simp only [if_pos h3]
      · simp only [if_neg h3]
        exact ih

/-! ## Data model (src/src/classes/SAM.ts) -/

/-- `SAM_PARAMS.RADAR_HEIGHT` (km). -/
def RADAR_HEIGHT : ℝ := 0.025

/-- `SAM_PARAMS.MIN_ELEVATION` (rad). -/
def MIN_ELEVATION : ℝ := -5 * (Real.pi / 180)

/-- `SAM_PARAMS.MAX_ELEVATION` (rad). -/
def MAX_ELEVATION : ℝ := 50 * (Real.pi / 180)

/-- `SAM_PARAMS.MAX_DISTANCE` (km). -/
def MAX_DISTANCE : ℝ := 120

/-- `SAM_PARAMS.RADAR_AZIMUT_DETECT_ACCURACY` (rad). -/
def RADAR_AZIMUT_DETECT_ACCURACY : ℝ := 4 * (Real.pi / 180)

/-- `SAM_PARAMS.RADAR_ELEVATION_DETECT_ACCURACY` (rad). -/
def RADAR_ELEVATION_DETECT_ACCURACY : ℝ := 18 * (Real.pi / 180)

/-- A flight object's `currentPoint` field: position in km plus
instantaneous speed `v`. -/
structure Point where
  x : ℝ
  y : ℝ
  z : ℝ
  v : ℝ

/-- The external `FlightObject` contract read by the engine
(identifier, position, heading, velocity, RCS, lifecycle flags). -/
structure FlightObject where
  identifier : String
  currentPoint : Point
  currentRotation : ℝ
  velocity : ℝ
  rcs : ℝ
  isLaunched : Bool
  isDestroyed : Bool

/-- `IRecognizedTargets`: one row of the Detection Engine's
`recognizedTargets` table. -/
structure RecTarget where
  identifier : String
  distance : ℝ
  azimut : ℝ
  elevation : ℝ
  radialVelocity : ℝ
  velocity : ℝ
  height : ℝ
  param : ℝ
  x : ℝ
  y : ℝ
  rotation : ℝ
  size : ℝ
  visibilityK : ℝ

/-- Events that `SAM.recalculateTargets` feeds to the event listener
(only `delete` events are emitted inside that method). -/
inductive SamEvent where
  | deleteTarget (id : String)
deriving DecidableEq

/-! ### Per-object geometry, named after the local constants of
`SAM.recalculateTargets` -/

/-- `Math.hypot(x, y)`: distance from the radar to the object. -/
def targetDistanceOf (fo : FlightObject) : ℝ :=
  Real.sqrt (fo.currentPoint.x ^ 2 + fo.currentPoint.y ^ 2)

/-- `Math.atan2(y, x)`: azimut from the radar to the object. -/
def targetAzimutOf (fo : FlightObject) : ℝ :=
  atan2 fo.currentPoint.y fo.currentPoint.x

/-- `(z - RADAR_HEIGHT) / targetDistance`: the small-angle elevation. -/
def targetElevationOf (fo : FlightObject) : ℝ :=
  (fo.currentPoint.z - RADAR_HEIGHT) / targetDistanceOf fo

/-- The angle between the azimut to the object and the object's heading,
minus π. -/
def targetAngleOf (fo : FlightObject) : ℝ :=
  (if targetAzimutOf fo > fo.currentRotation
    then targetAzimutOf fo - fo.currentRotation
    else fo.currentRotation - targetAzimutOf fo) - Real.pi

/-- `velocity * Math.cos(targetAngle)`. -/
def radialVelocityOf (fo : FlightObject) : ℝ :=
  fo.velocity * Real.cos (targetAngleOf fo)

/-- `SAM.isInVision`: the Earth-curvature horizon visibility test. -/
def isInVision (fo : FlightObject) : Prop :=
  Real.sqrt (2 * 6371.009 * RADAR_HEIGHT) +
      Real.sqrt (2 * 6371.009 * fo.currentPoint.z) > targetDistanceOf fo

/-- `Math.abs(targetDistance * Math.tan(targetAngle))`. -/
def targetParamOf (fo : FlightObject) : ℝ :=
  |targetDistanceOf fo * Real.tan (targetAngleOf fo)|

/-- `2 * Math.sqrt(rcs / Math.PI) / 1000`: size in km of the disk of equal
area. -/
def targetSizeOf (fo : FlightObject) : ℝ :=
  2 * Real.sqrt (fo.rcs / Real.pi) / 1000

/-- The elevation gate: strictly between the configured bounds. -/
def inAllowedElevation (fo : FlightObject) : Prop :=
  targetElevationOf fo > MIN_ELEVATION ∧ targetElevationOf fo < MAX_ELEVATION

/-- `(MAX_DISTANCE * rcs) / targetDistance`, before the upper clamp. -/
def visibilityKOf (fo : FlightObject) : ℝ :=
  MAX_DISTANCE * fo.rcs / targetDistanceOf fo

/-- The `IRecognizedTargets` row written by `recalculateTargets` for a
visible object: azimut shifted into `[0, 2π)`, `visibilityK` clamped at 1. -/
def mkRecognizedTarget (fo : FlightObject) : RecTarget where
  identifier := fo.identifier
  distance := targetDistanceOf fo
  azimut :=
    if targetAzimutOf fo < 0 then 2 * Real.pi + targetAzimutOf fo
    else targetAzimutOf fo
  elevation := targetElevationOf fo
  radialVelocity := radialVelocityOf fo
  velocity := fo.currentPoint.v
  height := fo.currentPoint.z
  param := targetParamOf fo
  x := fo.currentPoint.x
  y := fo.currentPoint.y
  rotation := fo.currentRotation
  size := targetSizeOf fo
  visibilityK := if visibilityKOf fo > 1 then 1 else visibilityKOf fo

/-- The `recognizedTargets` table paired with the log of events emitted so
far. -/
abbrev SamTargetsState := List (String × RecTarget) × List SamEvent

/-- One iteration of the `for`-loop of `SAM.recalculateTargets`:
skip unlaunched objects; for live launched objects upsert or delete the
recognized-target row (emitting `delete`); for destroyed objects delete the
row (emitting `delete`). -/
def processFlightObject (st : SamTargetsState) (fo : FlightObject) : SamTargetsState :=
  if !fo.isLaunched then st
  else if !fo.isDestroyed then
    if isInVision fo ∧ inAllowedElevation fo then
      (upsertKey fo.identifier (mkRecognizedTarget fo) st.1, st.2)
    else
      (eraseKey fo.identifier st.1, st.2 ++ [SamEvent.deleteTarget fo.identifier])
  else
    (eraseKey fo.identifier st.1, st.2 ++ [SamEvent.deleteTarget fo.identifier])

/-- `SAM.recalculateTargets`: the per-tick recompute over the whole flight
object registry. -/
def recalculateTargets (fos : List FlightObject) (st : SamTargetsState) : SamTargetsState :=
  fos.foldl processFlightObject st

/-- `SAM.getTargetOnAzimutAndElevation`: first recognized target whose
azimut and elevation both lie within the fixed half-width tolerance windows
of the query (`Object.keys(...).find(...) || null`). -/
def getTargetOnAzimutAndElevation (azimut elevation : ℝ) :
    List (String × RecTarget) → Option String
  | [] => none
  | (k, t) :: rest =>
    if |t.azimut - azimut| ≤ RADAR_AZIMUT_DETECT_ACCURACY / 2 ∧
        |elevation - t.elevation| ≤ RADAR_ELEVATION_DETECT_ACCURACY / 2 then some k
    else getTargetOnAzimutAndElevation azimut elevation rest

/-! ### Missile sweep (`SAM.recalculateMissiles`) -/

/-- A missile's `missileCurrentPoint`. -/
structure MissilePoint where
  x : ℝ
  y : ℝ
  z : ℝ

/-- The external `SAMissile` contract read by the engine. -/
structure SAMissile where
  identifier : String
  missileCurrentPoint : MissilePoint
  velocity : ℝ
  missileTargetDistance : ℝ
  missileKillRadius : ℝ
  isDestroyedMissile : Bool

/-- `IFlightMissiles`: a live missile's snapshot in `flightMissiles`. -/
structure FlightMissile where
  identifier : String
  x : ℝ
  y : ℝ
  z : ℝ
  velocity : ℝ

/-- True 3-D Euclidean distance from a flight object to a missile's
current position, as computed inside `recalculateMissiles`. -/
def distanceToMissile (fo : FlightObject) (m : SAMissile) : ℝ :=
  Real.sqrt ((fo.currentPoint.x - m.missileCurrentPoint.x) ^ 2 +
    (fo.currentPoint.y - m.missileCurrentPoint.y) ^ 2 +
    (fo.currentPoint.z - m.missileCurrentPoint.z) ^ 2)

/-- The state threaded through the missile sweep: the `flightMissiles`
snapshot table plus the lists of `destroyMissile()` and `kill()` capability
invocations made during the sweep. -/
structure MissileSweepState where
  flightMissiles : List (String × FlightMissile)
  destroyedCalls : List String
  killCalls : List String

/-- One iteration of the `for`-loop of `SAM.recalculateMissiles`: live
missiles get their snapshot upserted, and if `targetDistance ≤ killRadius`
the missile is destroyed and every flight object within `killRadius`
(3-D Euclidean) is killed; destroyed missiles get their snapshot removed. -/
def processMissile (fos : List FlightObject) (st : MissileSweepState) (m : SAMissile) :
    MissileSweepState :=
  if !m.isDestroyedMissile then
    let st1 := { st with
      flightMissiles := upsertKey m.identifier
        ⟨m.identifier, m.missileCurrentPoint.x, m.missileCurrentPoint.y,
          m.missileCurrentPoint.z, m.velocity⟩ st.flightMissiles }
    if m.missileTargetDistance ≤ m.missileKillRadius then
      { st1 with
        destroyedCalls := st1.destroyedCalls ++ [m.identifier],
        killCalls := st1.killCalls ++
          ((fos.filter fun fo => distanceToMissile fo m ≤ m.missileKillRadius).map
            fun fo => fo.identifier) }
    else st1
  else { st with flightMissiles := eraseKey m.identifier st.flightMissiles }

/-- `SAM.recalculateMissiles`: the per-tick missile sweep. -/
def recalculateMissiles (fos : List FlightObject) (missiles : List SAMissile)
    (st : MissileSweepState) : MissileSweepState :=
  missiles.foldl (processMissile fos) st

/-! ## The narrow-beam tracking radar `SNR` (Beam Tracker) -/

/-- Events emitted by the `SNR` state machines to its event listener
(the listener is always wired by the constructor). -/
inductive SNREvent where
  | capturedByDirection (b : Bool)
  | capturedByDistance (b : Bool)
deriving DecidableEq

/-- The mutable fields of class `SNR` that the capture state machines and
beam steering read and write.  The two `setInterval` follow-loop handles are
modelled as `Bool` flags (armed / cleared); event-listener invocations are
accumulated in `events`. -/
structure SNRState where
  azimut : ℝ
  verticalAngle : ℝ
  targetDistance : ℝ
  minVerticalAngle : ℝ
  maxVerticalAngle : ℝ
  maxDistance : ℝ
  flightObjects : List FlightObject
  rayWidth : ℝ
  distanceDetectRange : ℝ
  radarHeight : ℝ
  trackTargetInterval : Bool
  trackTargetDistanceInterval : Bool
  trackingTargetIdentifier : Option String
  missiles : List SAMissile
  events : List SNREvent

/-! ### Beam steering: `SNR.setAzimut` -/

/-- The degree normalization performed by `SNR.setAzimut` before the
90° offset: one conditional wraparound on each side, then a shift of the
`(270, ...]` overhang. -/
def setAzimutNorm (azimut : ℝ) : ℝ :=
  let a1 := if azimut > 360 then azimut - 360 else azimut
  let a2 := if a1 < 0 then 360 + a1 else a1
  if a2 > 270 then a2 - 360 else a2

/-- The internal radian azimut stored by `SNR.setAzimut(deg)`. -/
def setAzimutValue (azimut : ℝ) : ℝ :=
  (setAzimutNorm azimut - 90) * Real.pi / 180

/-- `SNR.setAzimut`: normalizes the degree input and stores the internal
radian azimut. -/
def setAzimut (s : SNRState) (azimut : ℝ) : SNRState :=
  { s with azimut := setAzimutValue azimut }

/-! ### SNR per-object geometry (as recomputed inside `SNR`) -/

/-- Distance from the SNR to a flight object (`Math.hypot`). -/
def snrTargetDistanceOf (fo : FlightObject) : ℝ :=
  Real.sqrt (fo.currentPoint.x ^ 2 + fo.currentPoint.y ^ 2)

/-- Azimut from the SNR to a flight object (`Math.atan2`). -/
def snrTargetAzimutOf (fo : FlightObject) : ℝ :=
  atan2 fo.currentPoint.y fo.currentPoint.x

/-- Vertical angle from the SNR to a flight object:
`(z - radarHeight/1000) / targetDistance`. -/
def snrTargetVerticalAngleOf (s : SNRState) (fo : FlightObject) : ℝ :=
  (fo.currentPoint.z - s.radarHeight / 1000) / snrTargetDistanceOf fo

/-- The SNR ray width in radians: `rayWidth * π / 180`. -/
def snrRayWidthRadOf (s : SNRState) : ℝ :=
  s.rayWidth * Real.pi / 180

/-- The linear ray width at the object's range:
`π * rayWidthRad * targetDistance / 180`. -/
def snrRayWidthAtOf (s : SNRState) (fo : FlightObject) : ℝ :=
  Real.pi * snrRayWidthRadOf s * snrTargetDistanceOf fo / 180

/-- The apparent angular spot size of an object used by
`SNR.captureTargetByDirection`:
`((2*sqrt(rcs/π)/1000) / targetDistance) / rayWidth`. -/
def snrTargetSpotAngleOf (s : SNRState) (fo : FlightObject) : ℝ :=
  2 * Real.sqrt (fo.rcs / Real.pi) / 1000 / snrTargetDistanceOf fo / snrRayWidthAtOf s fo

/-! ### Direction-capture state machine -/

/-- The capture tolerance test of `SNR.captureTargetByDirection`: beam-to-
target azimut difference below 2× the spot angle and vertical difference
below 1× the spot angle. -/
def capturesDirection (s : SNRState) (fo : FlightObject) : Prop :=
  |s.azimut - snrTargetAzimutOf fo| < |snrTargetSpotAngleOf s fo| * 2 ∧
    |s.verticalAngle - snrTargetVerticalAngleOf s fo| < |snrTargetSpotAngleOf s fo|

/-- The synchronous effect of `SNR.trackTargetByDirection`: remember the
tracked target and (re-)arm the direction follow loop. -/
def trackTargetByDirection (s : SNRState) (fo : FlightObject) : SNRState :=
  { s with trackTargetInterval := true, trackingTargetIdentifier := some fo.identifier }

/-- One iteration of the `forEach` of `SNR.captureTargetByDirection`:
every object meeting both tolerances triggers a capture (overwriting any
previous one) and an `isCapturedByDirection = true` event. -/
def captureDirectionStep (s : SNRState) (fo : FlightObject) : SNRState :=
  if capturesDirection s fo then
    { trackTargetByDirection s fo with
      events := (trackTargetByDirection s fo).events ++ [SNREvent.capturedByDirection true] }
  else s

/-- `SNR.captureTargetByDirection`: scan all flight objects. -/
def captureTargetByDirection (s : SNRState) : SNRState :=
  s.flightObjects.foldl captureDirectionStep s

/-- `SNR.resetCaptureTargetByDistance`: clear the distance follow loop and
emit `isCapturedByDistance = false` (unconditionally). -/
def resetCaptureTargetByDistance (s : SNRState) : SNRState :=
  { s with trackTargetDistanceInterval := false,
           events := s.events ++ [SNREvent.capturedByDistance false] }

/-- `SNR.resetCaptureTargetByDirection`: clear the direction follow loop and
tracked target, emit `isCapturedByDirection = false` (unconditionally),
destroy all missiles, then cascade into the distance reset. -/
def resetCaptureTargetByDirection (s : SNRState) : SNRState :=
  resetCaptureTargetByDistance
    { s with trackTargetInterval := false,
             trackingTargetIdentifier := none,
             events := s.events ++ [SNREvent.capturedByDirection false],
             missiles := s.missiles.map fun m => { m with isDestroyedMissile := true } }

/-! ### Distance-capture state machine -/

/-- The synchronous effect of `SNR.trackTargetByDistance`: (re-)arm the
distance follow loop. -/
def trackTargetByDistance (s : SNRState) : SNRState :=
  { s with trackTargetDistanceInterval := true }

/-- One iteration of the `forEach` of `SNR.captureTargetByDistance`:
capture requires the range cursor within the detection window of the
object's true range AND the object to be the currently direction-tracked
target. -/
def captureDistanceStep (s : SNRState) (fo : FlightObject) : SNRState :=
  if |snrTargetDistanceOf fo - s.targetDistance| < s.distanceDetectRange ∧
      s.trackingTargetIdentifier = some fo.identifier then
    { trackTargetByDistance s with
      events := (trackTargetByDistance s).events ++ [SNREvent.capturedByDistance true] }
  else s

/-- `SNR.captureTargetByDistance`: scan all flight objects. -/
def captureTargetByDistance (s : SNRState) : SNRState :=
  s.flightObjects.foldl captureDistanceStep s

/-! ## Lemmas about the recognition loop -/

theorem processFlightObject_unlaunched (st : SamTargetsState) (fo : FlightObject)
    (hl : fo.isLaunched = false) : processFlightObject st fo = st := by
  simp [processFlightObject, hl]

theorem processFlightObject_visible (st : SamTargetsState) (fo : FlightObject)
    (hl : fo.isLaunched = true) (hd : fo.isDestroyed = false)
    (h : isInVision fo ∧ inAllowedElevation fo) :
    processFlightObject st fo = (upsertKey fo.identifier (mkRecognizedTarget fo) st.1, st.2) := by
  simp [processFlightObject, hl, hd, h.1, h.2]

theorem processFlightObject_filtered (st : SamTargetsState) (fo : FlightObject)
    (hl : fo.isLaunched = true) (hd : fo.isDestroyed = false)
    (h : ¬(isInVision fo ∧ inAllowedElevation fo)) :
    processFlightObject st fo =
      (eraseKey fo.identifier st.1, st.2 ++ [SamEvent.deleteTarget fo.identifier]) := by
  simp [processFlightObject, hl, hd, h]

theorem processFlightObject_destroyed (st : SamTargetsState) (fo : FlightObject)
    (hl : fo.isLaunched = true) (hd : fo.isDestroyed = true) :
    processFlightObject st fo =
      (eraseKey fo.identifier st.1, st.2 ++ [SamEvent.deleteTarget fo.identifier]) := by
  simp [processFlightObject, hl, hd]

theorem lookupKey_processFlightObject_ne (st : SamTargetsState) (fo : FlightObject)
    (id : String) (h : fo.identifier ≠ id) :
    lookupKey id (processFlightObject st fo).1 = lookupKey id st.1 := by
  unfold processFlightObject
  split_ifs
  · rfl
  · exact lookupKey_upsertKey_ne id fo.identifier _ st.1 h
  · exact lookupKey_eraseKey_ne id fo.identifier st.1 h
  · exact lookupKey_eraseKey_ne id fo.identifier st.1 h

theorem lookupKey_recalculateTargets_not_mem (fos : List FlightObject)
    (st : SamTargetsState) (id : String)
    (h : id ∉ fos.map FlightObject.identifier) :
    lookupKey id (recalculateTargets fos st).1 = lookupKey id st.1 := by
  induction fos generalizing st with
  | nil => rfl
  | cons f rest ih =>
    simp only [List.map_cons, List.mem_cons] at h
    push_neg at h
    calc lookupKey id (recalculateTargets rest (processFlightObject st f)).1
        = lookupKey id (processFlightObject st f).1 := ih _ h.2
      _ = lookupKey id st.1 := lookupKey_processFlightObject_ne st f id (Ne.symm h.1)

/-! ### Key-uniqueness of the table is preserved by the loop -/

theorem mem_keys_upsertKey {α : Type} (k a : String) (v : α) (m : List (String × α))
    (h : a ∈ (upsertKey k v m).map Prod.fst) : a = k ∨ a ∈ m.map Prod.fst := by
  induction m with
  | nil => simpa [upsertKey] using h
  | cons p rest ih =>
    obtain ⟨k', v'⟩ := p
    by_cases h2 : k' = k
    · simp only [upsertKey, if_pos h2, List.map_cons, List.mem_cons] at h
      rcases h with h | h
      · exact Or.inl h
      · exact Or.inr (by simp [h])
    · simp only [upsertKey, if_neg h2, List.map_cons, List.mem_cons] at h
      rcases h with h | h
      · exact Or.inr (by simp [h])
      · rcases ih h with h3 | h3
        · exact Or.inl h3
        · exact Or.inr (by simp [h3])

theorem keysNodup_upsertKey {α : Type} (k : String) (v : α) (m : List (String × α))
    (h : (m.map Prod.fst).Nodup) : ((upsertKey k v m).map Prod.fst).Nodup := by
  induction m with
  | nil => simp [upsertKey]
  | cons p rest ih =>
    obtain ⟨k', v'⟩ := p
    simp only [List.map_cons, List.nodup_cons] at h
    by_cases h2 : k' = k
    · subst h2
      rw [show upsertKey k' v ((k', v') :: rest) = (k', v) :: rest from by simp [upsertKey]]
      simp only [List.map_cons, List.nodup_cons]
      exact ⟨h.1, h.2⟩
    · simp only [upsertKey, if_neg h2, List.map_cons, List.nodup_cons]
      refine ⟨fun hc => ?_, ih h.2⟩
      rcases mem_keys_upsertKey k k' v rest hc with h3 | h3
      · exact h2 h3
      · exact h.1 h3

theorem eraseKey_sublist {α : Type} (k : String) (m : List (String × α)) :
    (eraseKey k m).Sublist m := by
  induction m with
  | nil => simp [eraseKey]
  | cons p rest ih =>
    obtain ⟨k', v'⟩ := p
    by_cases h : k' = k
    · simp [eraseKey, h]
    · simpa [eraseKey, h] using ih.cons₂ (k', v')

theorem keysNodup_eraseKey {α : Type} (k : String) (m : List (String × α))
    (h : (m.map Prod.fst).Nodup) : ((eraseKey k m).map Prod.fst).Nodup :=
  h.sublist ((eraseKey_sublist k m).map Prod.fst)

theorem keysNodup_processFlightObject (st : SamTargetsState) (fo : FlightObject)
    (h : (st.1.map Prod.fst).Nodup) :
    ((processFlightObject st fo).1.map Prod.fst).Nodup := by
  unfold processFlightObject
  split_ifs
  · exact h
  · exact keysNodup_upsertKey _ _ _ h
  · exact keysNodup_eraseKey _ _ h
  · exact keysNodup_eraseKey _ _ h

/-! ### Presence/absence of an entry after a full recompute -/

theorem lookupKey_recalculateTargets_visible (fos : List FlightObject)
    (st : SamTargetsState) (fo : FlightObject)
    (hids : (fos.map FlightObject.identifier).Nodup) (hmem : fo ∈ fos)
    (hl : fo.isLaunched = true) (hd : fo.isDestroyed = false)
    (h : isInVision fo ∧ inAllowedElevation fo) :
    lookupKey fo.identifier (recalculateTargets fos st).1 = some (mkRecognizedTarget fo) := by
  induction fos generalizing st with
  | nil => cases hmem
  | cons f rest ih =>
    simp only [List.map_cons, List.nodup_cons] at hids
    rcases List.mem_cons.mp hmem with rfl | hmem'
    · show lookupKey fo.identifier (recalculateTargets rest (processFlightObject st fo)).1 = _
      rw [lookupKey_recalculateTargets_not_mem rest _ fo.identifier hids.1,
        processFlightObject_visible st fo hl hd h]
      exact lookupKey_upsertKey_self fo.identifier _ st.1
    · exact ih (processFlightObject st f) hids.2 hmem'

theorem lookupKey_recalculateTargets_removed (fos : List FlightObject)
    (st : SamTargetsState) (fo : FlightObject)
    (hkeys : (st.1.map Prod.fst).Nodup)
    (hids : (fos.map FlightObject.identifier).Nodup) (hmem : fo ∈ fos)
    (hl : fo.isLaunched = true)
    (h : fo.isDestroyed = true ∨ ¬(isInVision fo ∧ inAllowedElevation fo)) :
    lookupKey fo.identifier (recalculateTargets fos st).1 = none := by
  induction fos generalizing st with
  | nil => cases hmem
  | cons f rest ih =>
    simp only [List.map_cons, List.nodup_cons] at hids
    rcases List.mem_cons.mp hmem with rfl | hmem'
    · show lookupKey fo.identifier (recalculateTargets rest (processFlightObject st fo)).1 = _
      rw [lookupKey_recalculateTargets_not_mem rest _ fo.identifier hids.1]
      rcases h with hd | hflt
      · rw [processFlightObject_destroyed st fo hl hd]
        exact lookupKey_eraseKey_self fo.identifier st.1 hkeys
      · rcases Bool.eq_false_or_eq_true fo.isDestroyed with hd | hd
        · rw [processFlightObject_destroyed st fo hl hd]
          exact lookupKey_eraseKey_self fo.identifier st.1 hkeys
        · rw [processFlightObject_filtered st fo hl hd hflt]
          exact lookupKey_eraseKey_self fo.identifier st.1 hkeys
    · exact ih (processFlightObject st f) (keysNodup_processFlightObject st f hkeys)
        hids.2 hmem'

theorem lookupKey_recalculateTargets_unlaunched (fos : List FlightObject)
    (st : SamTargetsState) (fo : FlightObject)
    (hids : (fos.map FlightObject.identifier).Nodup) (hmem : fo ∈ fos)
    (hl : fo.isLaunched = false) :
    lookupKey fo.identifier (recalculateTargets fos st).1 = lookupKey fo.identifier st.1 := by
  induction fos generalizing st with
  | nil => cases hmem
  | cons f rest ih =>
    simp only [List.map_cons, List.nodup_cons] at hids
    rcases List.mem_cons.mp hmem with rfl | hmem'
    · show lookupKey fo.identifier (recalculateTargets rest (processFlightObject st fo)).1 = _
      rw [lookupKey_recalculateTargets_not_mem rest _ fo.identifier hids.1,
        processFlightObject_unlaunched st fo hl]
    · have hne : f.identifier ≠ fo.identifier := by
        intro hc
        exact hids.1 (hc ▸ List.mem_map_of_mem FlightObject.identifier hmem')
      calc lookupKey fo.identifier (recalculateTargets rest (processFlightObject st f)).1
          = lookupKey fo.identifier (processFlightObject st f).1 :=
            ih (processFlightObject st f) hids.2 hmem'
        _ = lookupKey fo.identifier st.1 :=
            lookupKey_processFlightObject_ne st f fo.identifier hne

/-! ### Counting `delete` events -/

/-- Number of `delete(id)` events in an event log. -/
def countDeletes (id : String) (evs : List SamEvent) : ℕ :=
  evs.count (SamEvent.deleteTarget id)

theorem countDeletes_append (id : String) (a b : List SamEvent) :
    countDeletes id (a ++ b) = countDeletes id a + countDeletes id b :=
  List.count_append _ _ _

theorem countDeletes_processFlightObject_ne (st : SamTargetsState) (fo : FlightObject)
    (id : String) (h : fo.identifier ≠ id) :
    countDeletes id (processFlightObject st fo).2 = countDeletes id st.2 := by
  unfold processFlightObject
  split_ifs
  · rfl
  · rfl
  · rw [show (eraseKey fo.identifier st.1,
        st.2 ++ [SamEvent.deleteTarget fo.identifier]).2 =
        st.2 ++ [SamEvent.deleteTarget fo.identifier] from rfl,
      countDeletes_append]
    simp [countDeletes, List.count_singleton', h]
  · rw [show (eraseKey fo.identifier st.1,
        st.2 ++ [SamEvent.deleteTarget fo.identifier]).2 =
        st.2 ++ [SamEvent.deleteTarget fo.identifier] from rfl,
      countDeletes_append]
    simp [countDeletes, List.count_singleton', h]

theorem countDeletes_recalculateTargets_not_mem (fos : List FlightObject)
    (st : SamTargetsState) (id : String)
    (h : id ∉ fos.map FlightObject.identifier) :
    countDeletes id (recalculateTargets fos st).2 = countDeletes id st.2 := by
  induction fos generalizing st with
  | nil => rfl
  | cons f rest ih =>
    simp only [List.map_cons, List.mem_cons] at h
    push_neg at h
    calc countDeletes id (recalculateTargets rest (processFlightObject st f)).2
        = countDeletes id (processFlightObject st f).2 := ih _ h.2
      _ = countDeletes id st.2 := countDeletes_processFlightObject_ne st f id (Ne.symm h.1)

theorem countDeletes_processFlightObject_trigger (st : SamTargetsState) (fo : FlightObject)
    (hl : fo.isLaunched = true)
    (h : fo.isDestroyed = true ∨ ¬(isInVision fo ∧ inAllowedElevation fo)) :
    countDeletes fo.identifier (processFlightObject st fo).2 =
      countDeletes fo.identifier st.2 + 1 := by
  have key : (processFlightObject st fo).2 =
      st.2 ++ [SamEvent.deleteTarget fo.identifier] := by
    rcases h with hd | hflt
    · rw [processFlightObject_destroyed st fo hl hd]
    · rcases Bool.eq_false_or_eq_true fo.isDestroyed with hd | hd
      · rw [processFlightObject_destroyed st fo hl hd]
      · rw [processFlightObject_filtered st fo hl hd hflt]
  rw [key, countDeletes_append]
  simp [countDeletes, List.count_singleton']

/-! ## Concrete scenario objects -/

theorem recalculateTargets_singleton (fo : FlightObject) (st : SamTargetsState) :
    recalculateTargets [fo] st = processFlightObject st fo := rfl

/-- The spec scenario object: (x, y, z) = (50, 0, 5) km, velocity 300,
rcs 10 m², heading 180°. -/
def fo4 : FlightObject where
  identifier := "t1"
  currentPoint := { x := 50, y := 0, z := 5, v := 300 }
  currentRotation := Real.pi
  velocity := 300
  rcs := 10
  isLaunched := true
  isDestroyed := false

theorem fo4_dist : targetDistanceOf fo4 = 50 := by
  show Real.sqrt ((50 : ℝ) ^ 2 + 0 ^ 2) = 50
  rw [show (50 : ℝ) ^ 2 + 0 ^ 2 = 50 ^ 2 by norm_num,
    Real.sqrt_sq (by norm_num : (0 : ℝ) ≤ 50)]

theorem fo4_azimut : targetAzimutOf fo4 = 0 := by
  show atan2 0 50 = 0
  rw [atan2_pos_x 0 50 (by norm_num)]
  norm_num [Real.arctan_zero]

theorem fo4_angle : targetAngleOf fo4 = 0 := by
  have hnot : ¬(targetAzimutOf fo4 > fo4.currentRotation) := by
    rw [fo4_azimut]
    show ¬((0 : ℝ) > Real.pi)
    exact not_lt.mpr Real.pi_pos.le
  unfold targetAngleOf
  rw [if_neg hnot, fo4_azimut]
  show Real.pi - 0 - Real.pi = 0
  ring

theorem fo4_radialVelocity : radialVelocityOf fo4 = 300 := by
  unfold radialVelocityOf
  rw [fo4_angle]
  show (300 : ℝ) * Real.cos 0 = 300
  simp

theorem fo4_elevation : targetElevationOf fo4 = (5 - 0.025) / 50 := by
  unfold targetElevationOf
  rw [fo4_dist]
  show ((5 : ℝ) - RADAR_HEIGHT) / 50 = (5 - 0.025) / 50
  norm_num [RADAR_HEIGHT]

/-- Any object at range 50 km and height 5 km passes the horizon test. -/
theorem isInVision_dist50_z5 (fo : FlightObject) (hd : targetDistanceOf fo = 50)
    (hz : fo.currentPoint.z = 5) : isInVision fo := by
  unfold isInVision
  rw [hd, hz]
  have h1 : (0 : ℝ) ≤ Real.sqrt (2 * 6371.009 * RADAR_HEIGHT) := Real.sqrt_nonneg _
  have h2 : (50 : ℝ) < Real.sqrt (2 * 6371.009 * 5) := by
    rw [show (2 : ℝ) * 6371.009 * 5 = 63710.09 by norm_num]
    exact (Real.lt_sqrt (by norm_num)).mpr (by norm_num)
  linarith

/-- The elevation (5 − 0.025)/50 ≈ 0.0995 rad lies strictly inside the
configured gate. -/
theorem inAllowedElevation_of_elev (fo : FlightObject)
    (he : targetElevationOf fo = (5 - 0.025) / 50) : inAllowedElevation fo := by
  unfold inAllowedElevation MIN_ELEVATION MAX_ELEVATION
  rw [he]
  constructor
  · nlinarith [Real.pi_gt_three]
  · nlinarith [Real.pi_gt_three]

theorem fo4_visible : isInVision fo4 := isInVision_dist50_z5 fo4 fo4_dist rfl

theorem fo4_elev_ok : inAllowedElevation fo4 := inAllowedElevation_of_elev fo4 fo4_elevation

/-- A stale recognized-target row used to probe the unlaunched-skip branch. -/
def staleTarget : RecTarget where
  identifier := "a"
  distance := 0
  azimut := 0
  elevation := 0
  radialVelocity := 0
  velocity := 0
  height := 0
  param := 0
  x := 0
  y := 0
  rotation := 0
  size := 0
  visibilityK := 0

/-- An unlaunched flight object with the same identifier as `staleTarget`. -/
def foU : FlightObject where
  identifier := "a"
  currentPoint := { x := 0, y := 0, z := 0, v := 0 }
  currentRotation := 0
  velocity := 0
  rcs := 0
  isLaunched := false
  isDestroyed := false

/-- A launched, destroyed flight object. -/
def foD : FlightObject where
  identifier := "d"
  currentPoint := { x := 1, y := 1, z := 1, v := 1 }
  currentRotation := 0
  velocity := 1
  rcs := 1
  isLaunched := true
  isDestroyed := true

/-! ## Claim C1 -/

/-- C1 (amended): after a `recalculateTargets` tick, a launched flight
object (with unique identifiers in the registry and in the table) has a
`recognizedTargets` entry if and only if it is not destroyed, passes the
horizon visibility test and has elevation strictly inside the configured
bounds — regardless of the entry's prior existence.  An object whose
`isLaunched` flag is false is skipped entirely: no entry is created, but a
pre-existing entry for it is NOT removed (so "never has an entry" holds
only when no entry existed before the tick). -/
theorem recognizedTargets_entry_iff (fos : List FlightObject) (st : SamTargetsState)
    (fo : FlightObject) (hkeys : (st.1.map Prod.fst).Nodup)
    (hids : (fos.map FlightObject.identifier).Nodup) (hmem : fo ∈ fos) :
    (fo.isLaunched = true →
      (lookupKey fo.identifier (recalculateTargets fos st).1 ≠ none ↔
        fo.isDestroyed = false ∧ isInVision fo ∧ inAllowedElevation fo)) ∧
    (fo.isLaunched = false →
      lookupKey fo.identifier (recalculateTargets fos st).1 =
        lookupKey fo.identifier st.1) := by
  constructor
  · intro hl
    by_cases hd : fo.isDestroyed = false
    · by_cases hv : isInVision fo ∧ inAllowedElevation fo
      · rw [lookupKey_recalculateTargets_visible fos st fo hids hmem hl hd hv]
        simp [hd, hv.1, hv.2]
      · rw [lookupKey_recalculateTargets_removed fos st fo hkeys hids hmem hl (Or.inr hv)]
        constructor
        · intro h
          exact absurd rfl h
        · rintro ⟨-, h1, h2⟩
          exact absurd ⟨h1, h2⟩ hv
    · have hd' : fo.isDestroyed = true := by
        revert hd
        cases fo.isDestroyed <;> simp
      rw [lookupKey_recalculateTargets_removed fos st fo hkeys hids hmem hl (Or.inl hd')]
      constructor
      · intro h
        exact absurd rfl h
      · rintro ⟨h0, -⟩
        rw [hd'] at h0
        cases h0
  · exact lookupKey_recalculateTargets_unlaunched fos st fo hids hmem

/-- C1 witness: the scenario object is launched, alive, visible and inside
the elevation gate, so after a tick from the empty table it has an entry. -/
theorem recognizedTargets_entry_iff_witness :
    lookupKey "t1" (recalculateTargets [fo4] ([], [])).1 ≠ none := by
  have h := (recognizedTargets_entry_iff [fo4] ([], []) fo4 (by simp) (by simp)
    (List.mem_singleton.mpr rfl)).1 rfl
  exact h.mpr ⟨rfl, fo4_visible, fo4_elev_ok⟩

/-- C1 counterexample: an object whose `isLaunched` flag is false is merely
skipped by the tick, so a pre-existing entry keyed by its identifier
survives — contradicting "an object whose isLaunched flag is false never
has an entry, regardless of the entry's prior existence". -/
theorem recognizedTargets_unlaunched_stale_entry_survives :
    foU.isLaunched = false ∧
    lookupKey "a" (recalculateTargets [foU] ([("a", staleTarget)], [])).1 =
      some staleTarget := by
  refine ⟨rfl, ?_⟩
  rw [recalculateTargets_singleton, processFlightObject_unlaunched _ _ rfl]
  simp [lookupKey]

/-! ## Claim C3 -/

/-- C3 (amended): on every tick, every launched flight object that is
destroyed or fails the visibility/elevation filter causes exactly one new
`delete(id)` event — regardless of whether a recognized-target entry
existed.  In particular the tick that removes an existing entry emits
`delete(id)`, and every subsequent tick emits `delete(id)` again even
though no entry exists any more. -/
theorem recalculateTargets_delete_every_tick (fos : List FlightObject)
    (st : SamTargetsState) (fo : FlightObject)
    (hids : (fos.map FlightObject.identifier).Nodup) (hmem : fo ∈ fos)
    (hl : fo.isLaunched = true)
    (h : fo.isDestroyed = true ∨ ¬(isInVision fo ∧ inAllowedElevation fo)) :
    countDeletes fo.identifier (recalculateTargets fos st).2 =
      countDeletes fo.identifier st.2 + 1 := by
  induction fos generalizing st with
  | nil => cases hmem
  | cons f rest ih =>
    simp only [List.map_cons, List.nodup_cons] at hids
    rcases List.mem_cons.mp hmem with rfl | hmem'
    · show countDeletes fo.identifier
        (recalculateTargets rest (processFlightObject st fo)).2 = _
      rw [countDeletes_recalculateTargets_not_mem rest _ fo.identifier hids.1]
      exact countDeletes_processFlightObject_trigger st fo hl h
    · have hne : f.identifier ≠ fo.identifier := by
        intro hc
        exact hids.1 (hc ▸ List.mem_map_of_mem FlightObject.identifier hmem')
      calc countDeletes fo.identifier
            (recalculateTargets rest (processFlightObject st f)).2
          = countDeletes fo.identifier (processFlightObject st f).2 + 1 :=
            ih (processFlightObject st f) hids.2 hmem'
        _ = countDeletes fo.identifier st.2 + 1 := by
            rw [countDeletes_processFlightObject_ne st f fo.identifier hne]

/-- C3 witness: one tick over a destroyed launched object emits one
`delete("d")` event. -/
theorem recalculateTargets_delete_every_tick_witness :
    countDeletes "d" (recalculateTargets [foD] ([], [])).2 = 1 := by
  have h := recalculateTargets_delete_every_tick [foD] ([], []) foD (by simp)
    (List.mem_singleton.mpr rfl) rfl (Or.inl rfl)
  simpa [countDeletes] using h

/-- C3 counterexample: starting from a table that contains the entry, the
first tick removes it and emits `delete("d")`; the second tick finds no
entry yet emits `delete("d")` again, so two deletes are emitted in total —
contradicting "no further delete(id) events are emitted on subsequent ticks
while no entry exists". -/
theorem recalculateTargets_delete_reemitted :
    lookupKey "d" (recalculateTargets [foD] ([("d", staleTarget)], [])).1 = none ∧
    countDeletes "d"
      (recalculateTargets [foD] (recalculateTargets [foD] ([("d", staleTarget)], []))).2 =
      2 := by
  constructor
  · rw [recalculateTargets_singleton, processFlightObject_destroyed _ _ rfl rfl]
    simp [eraseKey, lookupKey]
  · rw [recalculateTargets_singleton, recalculateTargets_singleton,
      processFlightObject_destroyed _ _ rfl rfl,
      processFlightObject_destroyed _ _ rfl rfl]
    simp [countDeletes, foD]

/-! ## Claim C4 -/

/-- C4 (amended): for the scenario object at (50, 0, 5) km, velocity 300,
rcs 10, heading π, the engine recognizes the target with distance 50,
azimut 0 and elevation (5 − 0.025)/50 — but the computed radial velocity is
exactly +300, not −300: the code's nose-offset angle |azimut − heading| − π
is 0 here and cos 0 = 1 (the code does not produce a negative range-rate
for closing targets). -/
theorem scenario_t1_recognized :
    lookupKey "t1" (recalculateTargets [fo4] ([], [])).1 = some (mkRecognizedTarget fo4) ∧
    (mkRecognizedTarget fo4).distance = 50 ∧
    (mkRecognizedTarget fo4).azimut = 0 ∧
    (mkRecognizedTarget fo4).elevation = (5 - 0.025) / 50 ∧
    (mkRecognizedTarget fo4).radialVelocity = 300 := by
  refine ⟨?_, fo4_dist, ?_, fo4_elevation, fo4_radialVelocity⟩
  · exact lookupKey_recalculateTargets_visible [fo4] ([], []) fo4 (by simp)
      (List.mem_singleton.mpr rfl) rfl rfl ⟨fo4_visible, fo4_elev_ok⟩
  · show (if targetAzimutOf fo4 < 0 then 2 * Real.pi + targetAzimutOf fo4
      else targetAzimutOf fo4) = 0
    rw [fo4_azimut]
    norm_num

/-- C4 counterexample: at the scenario input the recognized target's
radial velocity is +300, which is not negative, refuting
"radialVelocity approximately −300 (closing)". -/
theorem scenario_t1_radial_velocity_not_negative :
    lookupKey "t1" (recalculateTargets [fo4] ([], [])).1 = some (mkRecognizedTarget fo4) ∧
    (mkRecognizedTarget fo4).radialVelocity = 300 ∧
    ¬((mkRecognizedTarget fo4).radialVelocity < 0) := by
  refine ⟨lookupKey_recalculateTargets_visible [fo4] ([], []) fo4 (by simp)
    (List.mem_singleton.mpr rfl) rfl rfl ⟨fo4_visible, fo4_elev_ok⟩,
    fo4_radialVelocity, ?_⟩
  rw [show (mkRecognizedTarget fo4).radialVelocity = radialVelocityOf fo4 from rfl,
    fo4_radialVelocity]
  norm_num

/-! ## Claim C7 -/

/-- C7: every recognized-target entry produced for a launched, live,
visible, elevation-gated object with nonnegative rcs and positive distance
satisfies 0 ≤ visibilityK ≤ 1 and azimut ∈ [0, 2π); the stored azimut is
`atan2(y,x)` shifted by 2π when negative and visibilityK is
`clamp(MAX_DISTANCE * rcs / distance, 0, 1)`. -/
theorem recognizedTarget_bounds (fos : List FlightObject) (st : SamTargetsState)
    (fo : FlightObject)
    (hids : (fos.map FlightObject.identifier).Nodup) (hmem : fo ∈ fos)
    (hl : fo.isLaunched = true) (hd : fo.isDestroyed = false)
    (hvis : isInVision fo) (helev : inAllowedElevation fo)
    (hrcs : 0 ≤ fo.rcs) (hdist : 0 < targetDistanceOf fo) :
    ∃ e, lookupKey fo.identifier (recalculateTargets fos st).1 = some e ∧
      0 ≤ e.visibilityK ∧ e.visibilityK ≤ 1 ∧
      0 ≤ e.azimut ∧ e.azimut < 2 * Real.pi ∧
      e.azimut = (if atan2 fo.currentPoint.y fo.currentPoint.x < 0
        then 2 * Real.pi + atan2 fo.currentPoint.y fo.currentPoint.x
        else atan2 fo.currentPoint.y fo.currentPoint.x) ∧
      e.visibilityK = max 0 (min 1 (MAX_DISTANCE * fo.rcs / targetDistanceOf fo)) := by
  have hk0 : 0 ≤ visibilityKOf fo := by
    unfold visibilityKOf
    exact div_nonneg (mul_nonneg (by norm_num [MAX_DISTANCE]) hrcs) hdist.le
  have ha1 : -Real.pi < targetAzimutOf fo := neg_pi_lt_atan2 _ _
  have ha2 : targetAzimutOf fo ≤ Real.pi := atan2_le_pi _ _
  have hpi : 0 < Real.pi := Real.pi_pos
  refine ⟨mkRecognizedTarget fo,
    lookupKey_recalculateTargets_visible fos st fo hids hmem hl hd ⟨hvis, helev⟩,
    ?_, ?_, ?_, ?_, rfl, ?_⟩
  · show 0 ≤ (if visibilityKOf fo > 1 then 1 else visibilityKOf fo)
    split_ifs
    · norm_num
    · exact hk0
  · show (if visibilityKOf fo > 1 then 1 else visibilityKOf fo) ≤ 1
    split_ifs with h
    · exact le_refl 1
    · exact not_lt.mp h
  · show 0 ≤ (if targetAzimutOf fo < 0 then 2 * Real.pi + targetAzimutOf fo
      else targetAzimutOf fo)
    split_ifs with h
    · linarith
    · exact not_lt.mp h
  · show (if targetAzimutOf fo < 0 then 2 * Real.pi + targetAzimutOf fo
      else targetAzimutOf fo) < 2 * Real.pi
    split_ifs with h
    · linarith
    · linarith
  · show (if visibilityKOf fo > 1 then 1 else visibilityKOf fo) =
      max 0 (min 1 (MAX_DISTANCE * fo.rcs / targetDistanceOf fo))
    have hvk : MAX_DISTANCE * fo.rcs / targetDistanceOf fo = visibilityKOf fo := rfl
    rw [hvk]
    split_ifs with h
    · rw [min_eq_left h.le]
      norm_num
    · rw [min_eq_right (not_lt.mp h), max_eq_right hk0]

/-- C7 witness: the bounds hold for the concrete scenario entry. -/
theorem recognizedTarget_bounds_witness :
    ∃ e, lookupKey "t1" (recalculateTargets [fo4] ([], [])).1 = some e ∧
      0 ≤ e.visibilityK ∧ e.visibilityK ≤ 1 ∧
      0 ≤ e.azimut ∧ e.azimut < 2 * Real.pi := by
  obtain ⟨e, h1, h2, h3, h4, h5, -, -⟩ := recognizedTarget_bounds [fo4] ([], []) fo4
    (by simp) (List.mem_singleton.mpr rfl) rfl rfl fo4_visible fo4_elev_ok
    (by norm_num [fo4]) (fo4_dist ▸ by norm_num)
  exact ⟨e, h1, h2, h3, h4, h5⟩

/-! ## Claim C10 -/

/-- A flight object at range 50 km, height 5 km, whose azimut is one
hundredth of a radian below the positive x-axis — its stored azimut is
normalized to just below 2π. -/
def fo10 : FlightObject where
  identifier := "w"
  currentPoint :=
    { x := 50 * Real.cos (1 / 100), y := -(50 * Real.sin (1 / 100)), z := 5, v := 300 }
  currentRotation := 0
  velocity := 300
  rcs := 10
  isLaunched := true
  isDestroyed := false

theorem cos_hundredth_pos : 0 < Real.cos (1 / 100) := by
  apply Real.cos_pos_of_mem_Ioo
  constructor
  · have := Real.pi_gt_three
    show -(Real.pi / 2) < 1 / 100
    linarith
  · have := Real.pi_gt_three
    show (1 : ℝ) / 100 < Real.pi / 2
    linarith

theorem fo10_dist : targetDistanceOf fo10 = 50 := by
  show Real.sqrt ((50 * Real.cos (1 / 100)) ^ 2 + (-(50 * Real.sin (1 / 100))) ^ 2) = 50
  rw [show (50 * Real.cos (1 / 100)) ^ 2 + (-(50 * Real.sin (1 / 100))) ^ 2 =
      2500 * (Real.sin (1 / 100) ^ 2 + Real.cos (1 / 100) ^ 2) by ring,
    Real.sin_sq_add_cos_sq,
    show (2500 : ℝ) * 1 = 50 ^ 2 by norm_num,
    Real.sqrt_sq (by norm_num : (0 : ℝ) ≤ 50)]

theorem fo10_azimut : targetAzimutOf fo10 = -(1 / 100) := by
  show atan2 (-(50 * Real.sin (1 / 100))) (50 * Real.cos (1 / 100)) = -(1 / 100)
  have hx : (0 : ℝ) < 50 * Real.cos (1 / 100) := by
    have := cos_hundredth_pos
    linarith
  rw [atan2_pos_x _ _ hx]
  have hcos : Real.cos (1 / 100) ≠ 0 := ne_of_gt cos_hundredth_pos
  have hdiv : -(50 * Real.sin (1 / 100)) / (50 * Real.cos (1 / 100)) =
      Real.tan (-(1 / 100)) := by
    rw [Real.tan_neg, Real.tan_eq_sin_div_cos]
    field_simp
    ring
  rw [hdiv, Real.arctan_tan]
  · have := Real.pi_gt_three
    linarith
  · have := Real.pi_gt_three
    linarith

theorem fo10_elevation : targetElevationOf fo10 = (5 - 0.025) / 50 := by
  unfold targetElevationOf
  rw [fo10_dist]
  show ((5 : ℝ) - RADAR_HEIGHT) / 50 = (5 - 0.025) / 50
  norm_num [RADAR_HEIGHT]

theorem fo10_visible : isInVision fo10 := isInVision_dist50_z5 fo10 fo10_dist rfl

theorem fo10_elev_ok : inAllowedElevation fo10 :=
  inAllowedElevation_of_elev fo10 fo10_elevation

theorem fo10_azimut_stored : (mkRecognizedTarget fo10).azimut = 2 * Real.pi - 1 / 100 := by
  show (if targetAzimutOf fo10 < 0 then 2 * Real.pi + targetAzimutOf fo10
    else targetAzimutOf fo10) = 2 * Real.pi - 1 / 100
  rw [fo10_azimut, if_pos (by norm_num)]
  ring

theorem fo10_table :
    (recalculateTargets [fo10] ([], [])).1 = [("w", mkRecognizedTarget fo10)] := by
  rw [recalculateTargets_singleton,
    processFlightObject_visible _ _ rfl rfl ⟨fo10_visible, fo10_elev_ok⟩]
  rfl

/-- C10: the correlation query matches on the raw absolute difference of
the stored azimut (normalized into [0, 2π)) against the query azimut, with
no modular wraparound: the recognized target produced by `fo10` has true
angular separation 1/100 rad < tolerance from the query azimut 0, and its
elevation matches the query exactly, yet the query returns `null`. -/
theorem correlation_query_no_wraparound :
    ∃ e, lookupKey "w" (recalculateTargets [fo10] ([], [])).1 = some e ∧
      min |e.azimut - 0| (2 * Real.pi - |e.azimut - 0|) <
        RADAR_AZIMUT_DETECT_ACCURACY / 2 ∧
      |(5 - 0.025) / 50 - e.elevation| ≤ RADAR_ELEVATION_DETECT_ACCURACY / 2 ∧
      getTargetOnAzimutAndElevation 0 ((5 - 0.025) / 50)
        (recalculateTargets [fo10] ([], [])).1 = none := by
  have hpi3 := Real.pi_gt_three
  have hpi4 := Real.pi_le_four
  have habs : |(mkRecognizedTarget fo10).azimut - 0| = 2 * Real.pi - 1 / 100 := by
    rw [fo10_azimut_stored, sub_zero]
    exact abs_of_nonneg (by linarith)
  refine ⟨mkRecognizedTarget fo10, ?_, ?_, ?_, ?_⟩
  · rw [fo10_table]
    simp [lookupKey]
  · have hle : min |(mkRecognizedTarget fo10).azimut - 0|
        (2 * Real.pi - |(mkRecognizedTarget fo10).azimut - 0|) ≤ 1 / 100 := by
      rw [habs, show 2 * Real.pi - (2 * Real.pi - 1 / 100) = 1 / 100 by ring]
      exact min_le_right _ _
    refine lt_of_le_of_lt hle ?_
    unfold RADAR_AZIMUT_DETECT_ACCURACY
    linarith
  · rw [show (mkRecognizedTarget fo10).elevation = targetElevationOf fo10 from rfl,
      fo10_elevation, sub_self, abs_zero]
    unfold RADAR_ELEVATION_DETECT_ACCURACY
    positivity
  · rw [fo10_table]
    unfold getTargetOnAzimutAndElevation
    rw [if_neg]
    · rfl
    · rintro ⟨h1, -⟩
      rw [habs] at h1
      unfold RADAR_AZIMUT_DETECT_ACCURACY at h1
      linarith

/-! ## Claim C8 -/

theorem recalculateMissiles_singleton (fos : List FlightObject) (m : SAMissile)
    (st : MissileSweepState) :
    recalculateMissiles fos [m] st = processMissile fos st m := rfl

theorem processMissile_trigger (fos : List FlightObject) (st : MissileSweepState)
    (m : SAMissile) (hlive : m.isDestroyedMissile = false)
    (htrig : m.missileTargetDistance ≤ m.missileKillRadius) :
    processMissile fos st m =
      { flightMissiles := upsertKey m.identifier
          ⟨m.identifier, m.missileCurrentPoint.x, m.missileCurrentPoint.y,
            m.missileCurrentPoint.z, m.velocity⟩ st.flightMissiles,
        destroyedCalls := st.destroyedCalls ++ [m.identifier],
        killCalls := st.killCalls ++
          ((fos.filter fun fo => distanceToMissile fo m ≤ m.missileKillRadius).map
            fun fo => fo.identifier) } := by
  simp [processMissile, hlive, htrig]

theorem processMissile_destroyed (fos : List FlightObject) (st : MissileSweepState)
    (m : SAMissile) (hdes : m.isDestroyedMissile = true) :
    processMissile fos st m =
      { st with flightMissiles := eraseKey m.identifier st.flightMissiles } := by
  simp [processMissile, hdes]

/-- C8: on a sweep tick with a single live missile whose
`targetDistance ≤ killRadius`, the missile's `destroyMissile()` is invoked,
every flight object within `killRadius` (true 3-D Euclidean distance) has
`kill()` invoked, objects strictly farther are not killed (identifiers
unique), the missile's snapshot is upserted, and any destroyed missile has
its snapshot removed. -/
theorem missile_sweep_kill_evaluation (fos : List FlightObject)
    (fm : List (String × FlightMissile)) (m : SAMissile)
    (hnodup : (fos.map FlightObject.identifier).Nodup)
    (hlive : m.isDestroyedMissile = false)
    (htrig : m.missileTargetDistance ≤ m.missileKillRadius)
    (fo : FlightObject) (hmem : fo ∈ fos) :
    (recalculateMissiles fos [m] ⟨fm, [], []⟩).destroyedCalls = [m.identifier] ∧
    (distanceToMissile fo m ≤ m.missileKillRadius →
      fo.identifier ∈ (recalculateMissiles fos [m] ⟨fm, [], []⟩).killCalls) ∧
    (m.missileKillRadius < distanceToMissile fo m →
      fo.identifier ∉ (recalculateMissiles fos [m] ⟨fm, [], []⟩).killCalls) ∧
    lookupKey m.identifier (recalculateMissiles fos [m] ⟨fm, [], []⟩).flightMissiles =
      some ⟨m.identifier, m.missileCurrentPoint.x, m.missileCurrentPoint.y,
        m.missileCurrentPoint.z, m.velocity⟩ ∧
    (∀ (m' : SAMissile) (fm' : List (String × FlightMissile)),
      (fm'.map Prod.fst).Nodup → m'.isDestroyedMissile = true →
      lookupKey m'.identifier
        (recalculateMissiles fos [m'] ⟨fm', [], []⟩).flightMissiles = none) := by
  rw [recalculateMissiles_singleton, processMissile_trigger fos _ m hlive htrig]
  refine ⟨by simp, ?_, ?_, ?_, ?_⟩
  · intro hdist
    show fo.identifier ∈ [] ++
      ((fos.filter fun fo => distanceToMissile fo m ≤ m.missileKillRadius).map
        fun fo => fo.identifier)
    rw [List.nil_append]
    exact List.mem_map_of_mem _ (List.mem_filter.mpr ⟨hmem, by simpa using hdist⟩)
  · intro hfar hc
    obtain ⟨fo', hfo', heq⟩ := List.mem_map.mp hc
    obtain ⟨hfo'm, hp⟩ := List.mem_filter.mp hfo'
    have hfo'dist : distanceToMissile fo' m ≤ m.missileKillRadius := by simpa using hp
    have : fo' = fo := List.inj_on_of_nodup_map hnodup hfo'm hmem heq
    subst this
    exact absurd hfo'dist (not_le.mpr hfar)
  · exact lookupKey_upsertKey_self m.identifier _ fm
  · intro m' fm' hkeys' hdes
    rw [recalculateMissiles_singleton, processMissile_destroyed fos _ m' hdes]
    exact lookupKey_eraseKey_self m'.identifier fm' hkeys'

/-- The concrete sweep missile: at the origin, 0.5 km from its target,
kill radius 1 km. -/
def mA : SAMissile where
  identifier := "m1"
  missileCurrentPoint := { x := 0, y := 0, z := 0 }
  velocity := 1200
  missileTargetDistance := 0.5
  missileKillRadius := 1
  isDestroyedMissile := false

/-- A flight object 0.6 km from the missile. -/
def foNear : FlightObject where
  identifier := "near"
  currentPoint := { x := 0.6, y := 0, z := 0, v := 0 }
  currentRotation := 0
  velocity := 0
  rcs := 1
  isLaunched := true
  isDestroyed := false

/-- A flight object 5 km from the missile. -/
def foFar : FlightObject where
  identifier := "far"
  currentPoint := { x := 5, y := 0, z := 0, v := 0 }
  currentRotation := 0
  velocity := 0
  rcs := 1
  isLaunched := true
  isDestroyed := false

/-- C8 witness: with the concrete missile and objects, the near object is
killed, the far one is not, and the missile is destroyed. -/
theorem missile_sweep_kill_evaluation_witness :
    "near" ∈ (recalculateMissiles [foNear, foFar] [mA] ⟨[], [], []⟩).killCalls ∧
    "far" ∉ (recalculateMissiles [foNear, foFar] [mA] ⟨[], [], []⟩).killCalls ∧
    (recalculateMissiles [foNear, foFar] [mA] ⟨[], [], []⟩).destroyedCalls = ["m1"] := by
  have htrig : mA.missileTargetDistance ≤ mA.missileKillRadius := by
    show (0.5 : ℝ) ≤ 1
    norm_num
  have hnear := missile_sweep_kill_evaluation [foNear, foFar] [] mA (by decide) rfl htrig
    foNear (by simp)
  have hfar := missile_sweep_kill_evaluation [foNear, foFar] [] mA (by decide) rfl htrig
    foFar (by simp)
  have hdnear : distanceToMissile foNear mA = 0.6 := by
    show Real.sqrt (((0.6 : ℝ) - 0) ^ 2 + ((0 : ℝ) - 0) ^ 2 + ((0 : ℝ) - 0) ^ 2) = 0.6
    rw [show ((0.6 : ℝ) - 0) ^ 2 + ((0 : ℝ) - 0) ^ 2 + ((0 : ℝ) - 0) ^ 2 = 0.6 ^ 2 by
      norm_num, Real.sqrt_sq (by norm_num : (0 : ℝ) ≤ 0.6)]
  have hdfar : distanceToMissile foFar mA = 5 := by
    show Real.sqrt (((5 : ℝ) - 0) ^ 2 + ((0 : ℝ) - 0) ^ 2 + ((0 : ℝ) - 0) ^ 2) = 5
    rw [show ((5 : ℝ) - 0) ^ 2 + ((0 : ℝ) - 0) ^ 2 + ((0 : ℝ) - 0) ^ 2 = 5 ^ 2 by
      norm_num, Real.sqrt_sq (by norm_num : (0 : ℝ) ≤ 5)]
  refine ⟨hnear.2.1 ?_, hfar.2.2.1 ?_, hnear.1⟩
  · rw [hdnear]
    show (0.6 : ℝ) ≤ 1
    norm_num
  · rw [hdfar]
    show (1 : ℝ) < 5
    norm_num

/-! ## Claim C2 -/

/-- The SNR in its initial configuration (fields as initialized by the
class and a typical constructor call), with an empty event log. -/
def snr0 : SNRState where
  azimut := -(Real.pi / 2)
  verticalAngle := 0
  targetDistance := 0
  minVerticalAngle := -5
  maxVerticalAngle := 75
  maxDistance := 50
  flightObjects := []
  rayWidth := 20
  distanceDetectRange := 1
  radarHeight := 36
  trackTargetInterval := false
  trackTargetDistanceInterval := false
  trackingTargetIdentifier := none
  missiles := []
  events := []

/-- C2 (amended): direction-capture reset is idempotent on the tracking
state — after either one or two calls the tracked target is `none` and both
follow loops are cleared, and the second call changes nothing but the event
log — but it is NOT idempotent on event emission: every call
unconditionally emits one `isCapturedByDirection = false` event (and a
cascaded `isCapturedByDistance = false`), so two successive calls emit two
of each. -/
theorem resetCaptureTargetByDirection_twice (s : SNRState) :
    resetCaptureTargetByDirection (resetCaptureTargetByDirection s) =
      { resetCaptureTargetByDirection s with
        events := (resetCaptureTargetByDirection s).events ++
          [SNREvent.capturedByDirection false, SNREvent.capturedByDistance false] } ∧
    (resetCaptureTargetByDirection
      (resetCaptureTargetByDirection s)).trackingTargetIdentifier = none ∧
    (resetCaptureTargetByDirection (resetCaptureTargetByDirection s)).events =
      s.events ++ [SNREvent.capturedByDirection false, SNREvent.capturedByDistance false,
        SNREvent.capturedByDirection false, SNREvent.capturedByDistance false] := by
  have hff : ((fun m : SAMissile => { m with isDestroyedMissile := true }) ∘
      (fun m : SAMissile => { m with isDestroyedMissile := true })) =
      (fun m : SAMissile => { m with isDestroyedMissile := true }) := by
    funext m
    rfl
  refine ⟨?_, rfl, by simp [resetCaptureTargetByDirection, resetCaptureTargetByDistance]⟩
  simp [resetCaptureTargetByDirection, resetCaptureTargetByDistance, List.map_map, hff]

/-- C2 counterexample: two successive direction-capture resets from the
initial state emit two `isCapturedByDirection = false` events, not exactly
one. -/
theorem resetCaptureTargetByDirection_twice_two_events :
    ((resetCaptureTargetByDirection (resetCaptureTargetByDirection snr0)).events.count
      (SNREvent.capturedByDirection false)) = 2 := by
  rfl

/-! ## Claim C6 -/

theorem foldl_captureDistanceStep_idle (l : List FlightObject) (s : SNRState)
    (h : s.trackingTargetIdentifier = none) : l.foldl captureDistanceStep s = s := by
  induction l with
  | nil => rfl
  | cons fo rest ih =>
    have hstep : captureDistanceStep s fo = s := by
      unfold captureDistanceStep
      rw [if_neg]
      rintro ⟨-, hc⟩
      rw [h] at hc
      cases hc
    show rest.foldl captureDistanceStep (captureDistanceStep s fo) = s
    rw [hstep]
    exact ih

/-- C6: while direction-capture is idle (`trackingTargetIdentifier` is
null), `captureTargetByDistance` is a no-op for every range-cursor value
and every set of flight objects: distance-capture stays idle and no
`isCapturedByDistance = true` event is emitted (the state, including the
event log, is unchanged). -/
theorem captureTargetByDistance_requires_direction (s : SNRState)
    (h : s.trackingTargetIdentifier = none) : captureTargetByDistance s = s :=
  foldl_captureDistanceStep_idle s.flightObjects s h

/-! ## Claim C5 -/

/-- A capturable flight object at range 10 km dead ahead of a beam pointed
at azimut 0, vertical angle 0 (height exactly cancels the 36 m radar
mount). -/
def foA : FlightObject where
  identifier := "a"
  currentPoint := { x := 10, y := 0, z := 0.036, v := 0 }
  currentRotation := 0
  velocity := 0
  rcs := Real.pi
  isLaunched := true
  isDestroyed := false

/-- A second capturable flight object, at range 20 km on the same ray. -/
def foB : FlightObject where
  identifier := "b"
  currentPoint := { x := 20, y := 0, z := 0.036, v := 0 }
  currentRotation := 0
  velocity := 0
  rcs := Real.pi
  isLaunched := true
  isDestroyed := false

/-- A beam state in which both `foA` and `foB` meet the capture
tolerances. -/
def snrTwo : SNRState where
  azimut := 0
  verticalAngle := 0
  targetDistance := 0
  minVerticalAngle := -5
  maxVerticalAngle := 75
  maxDistance := 50
  flightObjects := [foA, foB]
  rayWidth := 1
  distanceDetectRange := 1
  radarHeight := 36
  trackTargetInterval := false
  trackTargetDistanceInterval := false
  trackingTargetIdentifier := none
  missiles := []
  events := []

/-- The identifier of the LAST object in registry order meeting the
capture tolerances (`none`-free accumulator threaded like the `forEach`),
used to state what `captureTargetByDirection` actually tracks. -/
def lastCapturedId (s : SNRState) (l : List FlightObject) (acc : Option String) :
    Option String :=
  l.foldl (fun a fo => if capturesDirection s fo then some fo.identifier else a) acc

theorem capturesDirection_congr (s s' : SNRState) (fo : FlightObject)
    (h1 : s'.azimut = s.azimut) (h2 : s'.verticalAngle = s.verticalAngle)
    (h3 : s'.rayWidth = s.rayWidth) (h4 : s'.radarHeight = s.radarHeight) :
    capturesDirection s' fo ↔ capturesDirection s fo := by
  unfold capturesDirection snrTargetSpotAngleOf snrRayWidthAtOf snrRayWidthRadOf
    snrTargetVerticalAngleOf
  rw [h1, h2, h3, h4]

theorem captureDirectionStep_geom (s : SNRState) (fo : FlightObject) :
    (captureDirectionStep s fo).azimut = s.azimut ∧
    (captureDirectionStep s fo).verticalAngle = s.verticalAngle ∧
    (captureDirectionStep s fo).rayWidth = s.rayWidth ∧
    (captureDirectionStep s fo).radarHeight = s.radarHeight := by
  unfold captureDirectionStep trackTargetByDirection
  split_ifs <;> exact ⟨rfl, rfl, rfl, rfl⟩

theorem foldl_captureDirectionStep_tracking (s : SNRState) (l : List FlightObject) :
    ∀ s' : SNRState, s'.azimut = s.azimut → s'.verticalAngle = s.verticalAngle →
      s'.rayWidth = s.rayWidth → s'.radarHeight = s.radarHeight →
      (l.foldl captureDirectionStep s').trackingTargetIdentifier =
        lastCapturedId s l s'.trackingTargetIdentifier := by
  induction l with
  | nil =>
    intro s' _ _ _ _
    rfl
  | cons fo rest ih =>
    intro s' h1 h2 h3 h4
    have hgeom := captureDirectionStep_geom s' fo
    have hstep := ih (captureDirectionStep s' fo) (hgeom.1.trans h1)
      (hgeom.2.1.trans h2) (hgeom.2.2.1.trans h3) (hgeom.2.2.2.trans h4)
    show (rest.foldl captureDirectionStep
      (captureDirectionStep s' fo)).trackingTargetIdentifier =
      lastCapturedId s (fo :: rest) s'.trackingTargetIdentifier
    rw [hstep]
    show lastCapturedId s rest (captureDirectionStep s' fo).trackingTargetIdentifier =
      lastCapturedId s rest
        (if capturesDirection s fo then some fo.identifier
         else s'.trackingTargetIdentifier)
    congr 1
    by_cases hc : capturesDirection s fo
    · rw [if_pos hc]
      have hc' : capturesDirection s' fo :=
        (capturesDirection_congr s s' fo h1 h2 h3 h4).mpr hc
      unfold captureDirectionStep
      rw [if_pos hc']
      rfl
    · rw [if_neg hc]
      have hc' : ¬capturesDirection s' fo := fun h =>
        hc ((capturesDirection_congr s s' fo h1 h2 h3 h4).mp h)
      unfold captureDirectionStep
      rw [if_neg hc']

/-- C5 (amended): `captureTargetByDirection` does not stop at the first
object meeting the tolerances — the `forEach` lets every matching object
trigger a capture that overwrites the previous one, so after the call the
tracked-target identifier is that of the LAST (latest-registered) object
meeting both tolerances (or the prior value when none matches). -/
theorem captureTargetByDirection_tracks_last_match (s : SNRState) :
    (captureTargetByDirection s).trackingTargetIdentifier =
      lastCapturedId s s.flightObjects s.trackingTargetIdentifier :=
  foldl_captureDirectionStep_tracking s s.flightObjects s rfl rfl rfl rfl

theorem snrTargetDistanceOf_foA : snrTargetDistanceOf foA = 10 := by
  show Real.sqrt ((10 : ℝ) ^ 2 + 0 ^ 2) = 10
  rw [show (10 : ℝ) ^ 2 + 0 ^ 2 = 10 ^ 2 by norm_num,
    Real.sqrt_sq (by norm_num : (0 : ℝ) ≤ 10)]

theorem snrTargetDistanceOf_foB : snrTargetDistanceOf foB = 20 := by
  show Real.sqrt ((20 : ℝ) ^ 2 + 0 ^ 2) = 20
  rw [show (20 : ℝ) ^ 2 + 0 ^ 2 = 20 ^ 2 by norm_num,
    Real.sqrt_sq (by norm_num : (0 : ℝ) ≤ 20)]

theorem snrTargetSpotAngleOf_pos (s : SNRState) (fo : FlightObject)
    (hrw : 0 < s.rayWidth) (hrcs : 0 < fo.rcs) (hd : 0 < snrTargetDistanceOf fo) :
    0 < snrTargetSpotAngleOf s fo := by
  unfold snrTargetSpotAngleOf snrRayWidthAtOf snrRayWidthRadOf
  have hpi := Real.pi_pos
  have h1 : 0 < Real.sqrt (fo.rcs / Real.pi) :=
    Real.sqrt_pos.mpr (div_pos hrcs hpi)
  have h2 : 0 < Real.pi * (s.rayWidth * Real.pi / 180) * snrTargetDistanceOf fo / 180 := by
    apply div_pos _ (by norm_num : (0 : ℝ) < 180)
    exact mul_pos (mul_pos hpi (div_pos (mul_pos hrw hpi) (by norm_num))) hd
  apply div_pos _ h2
  apply div_pos _ hd
  have : 0 < 2 * Real.sqrt (fo.rcs / Real.pi) := by linarith
  linarith

/-- Both objects meet the tolerances when their beam offsets are exactly
zero and the spot angle is nonzero. -/
theorem capturesDirection_of_zero_offsets (s : SNRState) (fo : FlightObject)
    (haz : s.azimut = snrTargetAzimutOf fo)
    (hv : s.verticalAngle = snrTargetVerticalAngleOf s fo)
    (hspot : snrTargetSpotAngleOf s fo ≠ 0) : capturesDirection s fo := by
  unfold capturesDirection
  rw [haz, hv, sub_self, sub_self, abs_zero]
  have h := abs_pos.mpr hspot
  exact ⟨by linarith, h⟩

theorem capturesDirection_snrTwo_foA : capturesDirection snrTwo foA := by
  apply capturesDirection_of_zero_offsets
  · show (0 : ℝ) = snrTargetAzimutOf foA
    show (0 : ℝ) = atan2 0 10
    rw [atan2_pos_x 0 10 (by norm_num)]
    norm_num [Real.arctan_zero]
  · unfold snrTargetVerticalAngleOf
    rw [snrTargetDistanceOf_foA]
    show (0 : ℝ) = ((0.036 : ℝ) - 36 / 1000) / 10
    norm_num
  · exact ne_of_gt (snrTargetSpotAngleOf_pos snrTwo foA
      (by show (0 : ℝ) < 1; norm_num)
      (by exact Real.pi_pos) (snrTargetDistanceOf_foA ▸ by norm_num))

theorem capturesDirection_snrTwo_foB : capturesDirection snrTwo foB := by
  apply capturesDirection_of_zero_offsets
  · show (0 : ℝ) = snrTargetAzimutOf foB
    show (0 : ℝ) = atan2 0 20
    rw [atan2_pos_x 0 20 (by norm_num)]
    norm_num [Real.arctan_zero]
  · unfold snrTargetVerticalAngleOf
    rw [snrTargetDistanceOf_foB]
    show (0 : ℝ) = ((0.036 : ℝ) - 36 / 1000) / 20
    norm_num
  · exact ne_of_gt (snrTargetSpotAngleOf_pos snrTwo foB
      (by show (0 : ℝ) < 1; norm_num)
      (by exact Real.pi_pos) (snrTargetDistanceOf_foB ▸ by norm_num))

/-- C5 counterexample: both `foA` (registered first) and `foB` (registered
second) meet the capture tolerances, yet after `captureTargetByDirection`
the tracked-target identifier is that of `foB`, not of the
earliest-registered `foA`. -/
theorem captureTargetByDirection_not_first_match :
    capturesDirection snrTwo foA ∧ capturesDirection snrTwo foB ∧
    snrTwo.flightObjects = [foA, foB] ∧ foA.identifier ≠ foB.identifier ∧
    (captureTargetByDirection snrTwo).trackingTargetIdentifier = some foB.identifier := by
  refine ⟨capturesDirection_snrTwo_foA, capturesDirection_snrTwo_foB, rfl,
    by decide, ?_⟩
  have h := foldl_captureDirectionStep_tracking snrTwo [foA, foB] snrTwo rfl rfl rfl rfl
  show (List.foldl captureDirectionStep snrTwo snrTwo.flightObjects).trackingTargetIdentifier =
    some foB.identifier
  rw [show snrTwo.flightObjects = [foA, foB] from rfl, h]
  show (if capturesDirection snrTwo foB then some foB.identifier
    else if capturesDirection snrTwo foA then some foA.identifier
    else snrTwo.trackingTargetIdentifier) = some foB.identifier
  rw [if_pos capturesDirection_snrTwo_foB]

/-- A state with flight objects in range of the cursor but no direction
track. -/
def snrIdle : SNRState := { snrTwo with targetDistance := 10 }

/-- C6 witness: a state with an in-window flight object but no direction
track: the distance-capture attempt leaves the state unchanged. -/
theorem captureTargetByDistance_requires_direction_witness :
    snrIdle.trackingTargetIdentifier = none ∧
    captureTargetByDistance snrIdle = snrIdle :=
  ⟨rfl, captureTargetByDistance_requires_direction snrIdle rfl⟩

/-! ## Claim C9 -/

/-- C9 (amended): `setAzimut(370)` and `setAzimut(10)` store the identical
internal azimut, and for degree inputs in (−450, 990] the normalization
puts `setAzimutNorm a − 90` into (−180, 180] degrees, congruent to
`a − 90` modulo 360 (the stored radian value is that times π/180).  The
code performs at most one wraparound per side, so the modulo property does
NOT hold for arbitrary inputs (see the counterexample at 1000). -/
theorem setAzimut_roundtrip_and_norm (a : ℝ) (hlo : -450 < a) (hhi : a ≤ 990) :
    setAzimutValue 370 = setAzimutValue 10 ∧
    (-180 < setAzimutNorm a - 90 ∧ setAzimutNorm a - 90 ≤ 180) ∧
    (∃ k : ℤ, setAzimutNorm a - 90 = a - 90 - 360 * (k : ℝ)) ∧
    (∀ s : SNRState, (setAzimut s a).azimut = (setAzimutNorm a - 90) * Real.pi / 180) := by
  refine ⟨by norm_num [setAzimutValue, setAzimutNorm], ?_, ?_, fun s => rfl⟩
  · simp only [setAzimutNorm]
    split_ifs with c1 c2 c3 c4 c5 c6 <;> constructor <;> linarith
  · simp only [setAzimutNorm]
    split_ifs with c1 c2 c3 c4 c5 c6
    · exact ⟨1, by push_cast; ring⟩
    · exact ⟨0, by push_cast; ring⟩
    · exact ⟨2, by push_cast; ring⟩
    · exact ⟨1, by push_cast; ring⟩
    · exact ⟨0, by push_cast; ring⟩
    · exact ⟨-1, by push_cast; ring⟩
    · exact ⟨1, by push_cast; ring⟩
    · exact ⟨0, by push_cast; ring⟩

/-- C9 witness: the round-trip and the normalization at the input 200. -/
theorem setAzimut_roundtrip_and_norm_witness :
    setAzimutValue 370 = setAzimutValue 10 ∧
    (-180 < setAzimutNorm 200 - 90 ∧ setAzimutNorm 200 - 90 ≤ 180) ∧
    (∃ k : ℤ, setAzimutNorm 200 - 90 = 200 - 90 - 360 * (k : ℝ)) ∧
    (∀ s : SNRState,
      (setAzimut s 200).azimut = (setAzimutNorm 200 - 90) * Real.pi / 180) :=
  setAzimut_roundtrip_and_norm 200 (by norm_num) (by norm_num)

/-- C9 counterexample: under "normalize by modulo wraparound" the inputs
1000 and 280 (which differ by 720) would store the same azimut; the code
only subtracts 360 once, so `setAzimut(1000)` stores 190°·π/180 while
`setAzimut(280)` stores −170°·π/180 — different real values, and 190 lies
outside (−180, 180]. -/
theorem setAzimut_not_modular_at_1000 :
    setAzimutValue 1000 ≠ setAzimutValue 280 := by
  have h1 : setAzimutValue 1000 = 190 * Real.pi / 180 := by
    norm_num [setAzimutValue, setAzimutNorm]
  have h2 : setAzimutValue 280 = -170 * Real.pi / 180 := by
    norm_num [setAzimutValue, setAzimutNorm]
  rw [h1, h2]
  intro hc
  have hpi : Real.pi = 0 := by linarith
  exact absurd hpi (ne_of_gt Real.pi_pos)

end SamSim
